import Mathlib

/-!
# Verification of the m2p reward-detection engine

A shallow embedding of `src/server/pool_poller.py` (class `PoolPoller`) and the
configuration in `src/config.py`, together with proofs settling the claims of
the design specification against this code.

Modelling conventions:
* JSON values decoded by `json.loads` are modelled by `JValue`; Python dicts
  are association lists (`List (String × JValue)`), with lookup returning the
  first binding, which agrees with Python dicts since keys are distinct.
* Numeric values are modelled as exact rationals (`ℚ`).  CPython represents
  them as IEEE-754 binary64 floats; the rounding performed when a decimal
  numeral enters the system is modelled separately by `pyFloat64` (round to
  nearest, ties to even, normal range).  All concrete numerals used in the
  theorems below (10, 5, 11.5, 1.5, 0.125, …) are exactly representable in
  binary64, so on those inputs the rational computation coincides with the
  float computation performed by the Python code.
* Python exceptions are modelled with `Except PyErr`; the parsers' bodies run
  in this monad and their `except (ValueError, TypeError)` clauses are the
  function `catchVT`.
* The database state relevant to one (player, pool) pair — the snapshot rows,
  the mining-event rows, and the player's running totals — is the structure
  `PoolPairState`; `process_pool_data` is the state transformer of the method
  of the same name.
-/

namespace M2P

/-- Python exception classes that the poller's code can raise or catch.
`OverflowError` is raised by `float(n)` on an arbitrary-precision `int`
outside the binary64 range; the parsers' `except (ValueError, TypeError)`
clauses do not catch it. -/
inductive PyErr where
  | valueError
  | typeError
  | attributeError
  | overflowError
  deriving DecidableEq, Repr

/-- A JSON value as produced by `json.loads`: `None`, `bool`, numbers,
strings, lists and dicts.  Integer numerals decode to arbitrary-precision
Python `int` (`int`); numerals with a decimal point or exponent decode to
Python `float` (`num`, modelled as exact rationals — see `pyFloat64` for
the binary64 rounding). -/
inductive JValue where
  | null
  | bool (b : Bool)
  | int (n : ℤ)
  | num (q : ℚ)
  | str (s : String)
  | arr (xs : List JValue)
  | obj (fields : List (String × JValue))
  deriving Repr

/-- Whether a `JValue` is a dict (a Python object with a `.get` method). -/
def JValue.isObj : JValue → Bool
  | .obj _ => true
  | _ => false

/-- Numeric value of a list of decimal digit characters (most significant
first), used by the model of `float(str)`. -/
def natOfDigits (ds : List Char) : ℕ :=
  ds.foldl (fun a c => a * 10 + (c.toNat - 48)) 0

/-- Split a leading sign character off a character list, returning `-1` or
`1` together with the remaining characters. -/
def splitSign (cs : List Char) : ℤ × List Char :=
  match cs with
  | '-' :: t => (-1, t)
  | '+' :: t => (1, t)
  | _ => (1, cs)

/-- `10 ^ e` as a rational, for an integer exponent `e`. -/
def qpow10 (e : ℤ) : ℚ :=
  if 0 ≤ e then ((10 ^ e.toNat : ℕ) : ℚ) else 1 / ((10 ^ (-e).toNat : ℕ) : ℚ)

/-- Model of CPython's `float(str)` conversion for finite decimal literals:
optional surrounding whitespace, optional sign, digits with an optional
fractional part (at least one digit overall), and an optional decimal
exponent.  `none` models `ValueError`.  (The special spellings `inf`/`nan`
and digit-group underscores are not modelled; no claim depends on them.)
The binary64 rounding of the resulting decimal value is applied by the
caller `pyFloat`. -/
def floatOfString (s : String) : Option ℚ :=
  let cs := s.trim.toList
  let (sgn, cs1) := splitSign cs
  let (ip, cs2) := cs1.span Char.isDigit
  let (fp, cs3) :=
    match cs2 with
    | '.' :: t => t.span Char.isDigit
    | _ => ([], cs2)
  if ip.isEmpty && fp.isEmpty then none
  else
    match cs3 with
    | [] =>
        some ((sgn : ℚ) * ((natOfDigits ip : ℚ) +
          (natOfDigits fp : ℚ) / ((10 ^ fp.length : ℕ) : ℚ)))
    | c :: t =>
        if c = 'e' ∨ c = 'E' then
          let (esgn, t1) := splitSign t
          let (eds, t2) := t1.span Char.isDigit
          if eds.isEmpty || !t2.isEmpty then none
          else
            some ((sgn : ℚ) * ((natOfDigits ip : ℚ) +
              (natOfDigits fp : ℚ) / ((10 ^ fp.length : ℕ) : ℚ)) *
              qpow10 (esgn * (natOfDigits eds : ℤ)))
        else none

/-- The smallest integer magnitude on which CPython's `float(n)` raises
`OverflowError`: the maximal binary64 value is `2^1024 - 2^971`, and
round-to-nearest ties-to-even sends every magnitude of at least
`2^1024 - 2^970` (halfway to `2^1024`) to infinity, which `float(int)`
reports as `OverflowError` rather than returning `inf`. -/
def overflowBound : ℤ := 2 ^ 1024 - 2 ^ 970

/-- Model of CPython's `float(x)` applied to a JSON-decoded value:
`None`, lists and dicts raise `TypeError`; unparsable strings raise
`ValueError`; `bool` converts to `0.0`/`1.0`; an arbitrary-precision `int`
raises `OverflowError` beyond the binary64 range (`overflowBound`) and
converts otherwise; `float` numbers are returned as is (JSON decimal
numerals are already floats after `json.loads`).  In-range conversions are
kept exact in ℚ, per this file's idealization of float arithmetic. -/
def pyFloat : JValue → Except PyErr ℚ
  | .null => .error .typeError
  | .bool b => .ok (if b then 1 else 0)
  | .int n => if overflowBound ≤ |n| then .error .overflowError else .ok (n : ℚ)
  | .num q => .ok q
  | .str s =>
      match floatOfString s with
      | some q => .ok q
      | none => .error .valueError
  | .arr _ => .error .typeError
  | .obj _ => .error .typeError

/-- Python `d.get(k, default)` on a dict. -/
def jget (d : List (String × JValue)) (k : String) (dflt : JValue) : JValue :=
  (d.lookup k).getD dflt

/-- Python `v.get(k, default)` on an arbitrary value: raises
`AttributeError` when `v` is not a dict (as in `parse_rplant` when the
`"stats"` field is not an object). -/
def pyGet (v : JValue) (k : String) (dflt : JValue) : Except PyErr JValue :=
  match v with
  | .obj d => .ok (jget d k dflt)
  | _ => .error .attributeError

/-- The `except (ValueError, TypeError)` clause shared by the three parsers:
those two exception classes are replaced by the fallback result
`{"paid": 0.0}`; any other exception propagates. -/
def catchVT (x : Except PyErr (List (String × ℚ))) :
    Except PyErr (List (String × ℚ)) :=
  match x with
  | .ok l => .ok l
  | .error .valueError => .ok [("paid", 0)]
  | .error .typeError => .ok [("paid", 0)]
  | .error e => .error e

/-- Round a rational to the nearest integer, ties to even — the rounding
mode of IEEE-754 binary64 arithmetic. -/
def roundHalfEven (x : ℚ) : ℤ :=
  let f := ⌊x⌋
  let r := x - (f : ℚ)
  if r < 1 / 2 then f
  else if 1 / 2 < r then f + 1
  else if f % 2 = 0 then f else f + 1

/-- The IEEE-754 binary64 value nearest to a rational `q` (as an exact
rational): the value CPython stores when `json.loads` or `float` produces
`q` from a decimal numeral.  The significand is rounded to 53 bits
(`Int.log 2 |q|` is the binade exponent), round to nearest with ties to
even; the subnormal and overflow ranges are not modelled (every quantity in
this development is far inside the normal range). -/
def pyFloat64 (q : ℚ) : ℚ :=
  if q = 0 then 0
  else
    let a := |q|
    let sgn : ℚ := if q < 0 then -1 else 1
    let e := Int.log 2 a
    let m := roundHalfEven (a * (2 : ℚ) ^ (52 - e))
    sgn * (m : ℚ) * (2 : ℚ) ^ (e - 52)

/-- The numeric configuration fields of `Settings` in `src/config.py` that
the poller reads. -/
structure Settings where
  poll_interval_seconds : ℚ
  ap_per_advc : ℚ
  min_payout_delta : ℚ
  btc_to_advc_rate : ℚ
  deriving DecidableEq, Repr

/-- The default values declared in `src/config.py` (`poll_interval_seconds =
60`, `ap_per_advc = 100.0`, `min_payout_delta = 0.0001`, `btc_to_advc_rate =
1000000.0`). -/
def defaultSettings : Settings :=
  { poll_interval_seconds := 60
    ap_per_advc := 100
    min_payout_delta := 1 / 10000
    btc_to_advc_rate := 1000000 }

/-- `PoolPoller.parse_cpu_pool` (src/server/pool_poller.py:163-182): builds
`{"paid", "total_hash", "total_shares", "immature", "balance"}` from the
corresponding response fields, each defaulted to `0.0` when absent, with
`ValueError`/`TypeError` from any conversion caught and replaced by
`{"paid": 0.0}`. -/
def parse_cpu_pool (data : List (String × JValue)) :
    Except PyErr (List (String × ℚ)) :=
  catchVT (do
    let paid ← pyFloat (jget data "paid" (.num 0))
    let total_hash ← pyFloat (jget data "totalHash" (.num 0))
    let total_shares ← pyFloat (jget data "totalShares" (.num 0))
    let immature ← pyFloat (jget data "immature" (.num 0))
    let balance ← pyFloat (jget data "balance" (.num 0))
    pure [("paid", paid), ("total_hash", total_hash),
          ("total_shares", total_shares), ("immature", immature),
          ("balance", balance)])

/-- `PoolPoller.parse_rplant` (src/server/pool_poller.py:184-221): tries the
`{"stats": {...}}`, `{"paid": ...}` and `{"totalPaid": ...}` shapes in turn,
falling back to `0.0`; note that when `"stats"` is present but not a dict,
`stats.get` raises `AttributeError`, which the `except (ValueError,
TypeError)` clause does not catch. -/
def parse_rplant (data : List (String × JValue)) :
    Except PyErr (List (String × ℚ)) :=
  catchVT (do
    let paid ←
      if (data.lookup "stats").isSome then do
        let stats := jget data "stats" .null
        let v ← pyGet stats "paid" (.num 0)
        pyFloat v
      else if (data.lookup "paid").isSome then
        pyFloat (jget data "paid" (.num 0))
      else if (data.lookup "totalPaid").isSome then
        pyFloat (jget data "totalPaid" (.num 0))
      else
        pure 0
    let balance ← pyFloat (jget data "balance" (.num 0))
    pure [("paid", paid), ("balance", balance)])

/-- `PoolPoller.parse_zpool` (src/server/pool_poller.py:223-246): reads the
BTC-denominated fields and converts each with `settings.btc_to_advc_rate`,
with the same `except (ValueError, TypeError)` fallback. -/
def parse_zpool (s : Settings) (data : List (String × JValue)) :
    Except PyErr (List (String × ℚ)) :=
  catchVT (do
    let paid_btc ← pyFloat (jget data "paid" (.num 0))
    let balance ← pyFloat (jget data "balance" (.num 0))
    let unpaid ← pyFloat (jget data "unpaid" (.num 0))
    let unsold ← pyFloat (jget data "unsold" (.num 0))
    pure [("paid", paid_btc * s.btc_to_advc_rate),
          ("balance", balance * s.btc_to_advc_rate),
          ("unpaid", unpaid * s.btc_to_advc_rate),
          ("unsold", unsold * s.btc_to_advc_rate)])

/-- A row of the `PoolSnapshot` table as created by `process_pool_data`
(src/server/pool_poller.py:431-440): the cumulative `paid` value plus the
auxiliary stats, each taken from the parsed record with default `0.0`.
(The `raw_response` debug column and timestamps are omitted; rows are kept
newest first, mirroring the `order_by(snapshot_time.desc())` query.) -/
structure PoolSnapshot where
  paid : ℚ
  total_hash : ℚ
  total_shares : ℚ
  immature : ℚ
  balance : ℚ
  deriving DecidableEq, Repr

/-- A row of the `MiningEvent` table as created by `process_pool_data`
(src/server/pool_poller.py:389-398).  `processed` is set to `True` at
creation; `notified` is `False` at the first commit and set to `True` after
the (best-effort) notification, which is where the method leaves it. -/
structure MiningEvent where
  advc_amount : ℚ
  ap_awarded : ℚ
  previous_paid : ℚ
  current_paid : ℚ
  processed : Bool
  notified : Bool
  deriving DecidableEq, Repr

/-- The database state `process_pool_data` touches for one fixed
(player, pool) pair: that pair's `PoolSnapshot` rows (newest first), its
`MiningEvent` rows (newest first), and the player's running totals
(`Player.total_ap`, `Player.total_advc_mined`). -/
structure PoolPairState where
  snapshots : List PoolSnapshot
  events : List MiningEvent
  total_ap : ℚ
  total_advc_mined : ℚ
  deriving DecidableEq, Repr

/-- The state of a (player, pool) pair never seen before: no snapshot rows,
no mining events, zero totals. -/
def emptyPairState : PoolPairState :=
  { snapshots := [], events := [], total_ap := 0, total_advc_mined := 0 }

/-- `data.get(k, 0.0)` on a parsed (string-to-float) record. -/
def getF (data : List (String × ℚ)) (k : String) : ℚ :=
  (data.lookup k).getD 0

/-- The snapshot row built at src/server/pool_poller.py:431-440 from a
parsed record. -/
def snapOf (data : List (String × ℚ)) : PoolSnapshot :=
  { paid := getF data "paid"
    total_hash := getF data "total_hash"
    total_shares := getF data "total_shares"
    immature := getF data "immature"
    balance := getF data "balance" }

/-- `last_snapshot.paid if last_snapshot else 0.0`
(src/server/pool_poller.py:380): the paid value of the newest snapshot row,
or `0.0` when the pair has never been observed. -/
def lastPaid (st : PoolPairState) : ℚ :=
  ((st.snapshots.head?).map PoolSnapshot.paid).getD 0

/-- `PoolPoller.process_pool_data` (src/server/pool_poller.py:343-445),
restricted to its database effect on one (player, pool) pair:
`current_paid = data.get("paid", 0.0)`; `delta = current_paid - last_paid`
against the newest snapshot (default `0.0`); if
`delta > settings.min_payout_delta` a `MiningEvent` is inserted with
`ap_awarded = delta * settings.ap_per_advc` and the player totals are
incremented; in every case a new `PoolSnapshot` row is added. -/
def process_pool_data (s : Settings) (data : List (String × ℚ))
    (st : PoolPairState) : PoolPairState :=
  let current_paid := getF data "paid"
  let last_paid := lastPaid st
  let delta := current_paid - last_paid
  let st1 :=
    if delta > s.min_payout_delta then
      let ap_awarded := delta * s.ap_per_advc
      { st with
        events :=
          { advc_amount := delta
            ap_awarded := ap_awarded
            previous_paid := last_paid
            current_paid := current_paid
            processed := true
            notified := true } :: st.events
        total_ap := st.total_ap + ap_awarded
        total_advc_mined := st.total_advc_mined + delta }
    else st
  { st1 with snapshots := snapOf data :: st1.snapshots }

/-- Iterated `process_pool_data` over a sequence of successive parsed
records for the same (player, pool) pair, oldest first. -/
def processSeq (s : Settings) (records : List (List (String × ℚ)))
    (st : PoolPairState) : PoolPairState :=
  records.foldl (fun acc r => process_pool_data s r acc) st

/-- The inter-cycle wait of `PoolPoller.run_forever`
(src/server/pool_poller.py:566-595): after a polling cycle it waits on the
shutdown event with `timeout=settings.poll_interval_seconds` — a constant;
the elapsed time of the just-finished cycle does not enter the timeout. -/
def run_forever_wait (s : Settings) (_elapsedCycleTime : ℚ) : ℚ :=
  s.poll_interval_seconds

/-- Modelled from the spec: "Between cycles it sleeps for the configured
interval minus elapsed cycle time (never negative — if a cycle overruns the
interval, the next cycle starts immediately)."  This definition follows the
spec's words; the code's wait is `run_forever_wait`. -/
def spec_sleep (interval elapsedCycleTime : ℚ) : ℚ :=
  max (interval - elapsedCycleTime) 0

/-! ## General lemmas about `process_pool_data` -/

/-- A snapshot row built from the parsed record is prepended on every call,
whether or not an event was credited (src/server/pool_poller.py:430-442). -/
theorem process_pool_data_snapshots (s : Settings) (d : List (String × ℚ))
    (st : PoolPairState) :
    (process_pool_data s d st).snapshots = snapOf d :: st.snapshots := by
  simp only [process_pool_data]
  split <;> rfl

/-- When the computed delta does not exceed `min_payout_delta`, the call
only prepends the new snapshot row: no event, no change to totals. -/
theorem process_pool_data_of_le (s : Settings) (d : List (String × ℚ))
    (st : PoolPairState)
    (h : getF d "paid" - lastPaid st ≤ s.min_payout_delta) :
    process_pool_data s d st = { st with snapshots := snapOf d :: st.snapshots } := by
  simp only [process_pool_data]
  rw [if_neg (not_lt.mpr h)]

/-- When the computed delta strictly exceeds `min_payout_delta`, the call
prepends a `MiningEvent` carrying the delta, adds `delta * ap_per_advc` and
`delta` to the player totals, and prepends the new snapshot row. -/
theorem process_pool_data_of_gt (s : Settings) (d : List (String × ℚ))
    (st : PoolPairState)
    (h : s.min_payout_delta < getF d "paid" - lastPaid st) :
    process_pool_data s d st =
      { snapshots := snapOf d :: st.snapshots
        events :=
          { advc_amount := getF d "paid" - lastPaid st
            ap_awarded := (getF d "paid" - lastPaid st) * s.ap_per_advc
            previous_paid := lastPaid st
            current_paid := getF d "paid"
            processed := true
            notified := true } :: st.events
        total_ap := st.total_ap + (getF d "paid" - lastPaid st) * s.ap_per_advc
        total_advc_mined := st.total_advc_mined + (getF d "paid" - lastPaid st) } := by
  simp only [process_pool_data]
  rw [if_pos h]

/-- The paid value of the snapshot row built from a record is the record's
paid value. -/
theorem snapOf_paid (d : List (String × ℚ)) : (snapOf d).paid = getF d "paid" := rfl

/-- After a call, the newest snapshot's paid value — the baseline the next
poll will diff against — is the record's paid value. -/
theorem lastPaid_process_pool_data (s : Settings) (d : List (String × ℚ))
    (st : PoolPairState) :
    lastPaid (process_pool_data s d st) = getF d "paid" := by
  rw [lastPaid, process_pool_data_snapshots]
  rfl

/-! ## General lemmas about the parsers -/

/-- `float(x)` on a JSON-decoded value either succeeds or raises
`ValueError`, `TypeError` or (for an out-of-range integer)
`OverflowError` — never any other exception class. -/
theorem pyFloat_cases (v : JValue) :
    (∃ q, pyFloat v = .ok q) ∨ pyFloat v = .error .valueError ∨
      pyFloat v = .error .typeError ∨ pyFloat v = .error .overflowError := by
  cases v with
  | str s =>
      rcases h : floatOfString s with _ | q <;> simp [pyFloat, h]
  | int n =>
      by_cases h : overflowBound ≤ |n| <;> simp [pyFloat, h]
  | _ => simp [pyFloat]

/-- A value known not to overflow converts like a value in the
pre-overflow model: success, `ValueError` or `TypeError` only. -/
theorem pyFloat_cases_of_ne_overflow (v : JValue)
    (h : pyFloat v ≠ .error .overflowError) :
    (∃ q, pyFloat v = .ok q) ∨ pyFloat v = .error .valueError ∨
      pyFloat v = .error .typeError := by
  rcases pyFloat_cases v with h' | h' | h' | h'
  · exact Or.inl h'
  · exact Or.inr (Or.inl h')
  · exact Or.inr (Or.inr h')
  · exact absurd h' h

/-- The `"paid"` value of a parser result: `none` when the parser raised,
otherwise the `"paid"` entry of the returned record. -/
def paidVal : Except PyErr (List (String × ℚ)) → Option ℚ
  | .ok out => out.lookup "paid"
  | .error _ => none

/-- `parse_cpu_pool` is total on dicts whose fields are in float range: it
never raises, and its result always carries a `"paid"` entry.  (A field
holding an out-of-range integer would instead raise an uncaught
`OverflowError` — see `c10_parsers_total`.) -/
theorem parse_cpu_pool_total (d : List (String × JValue))
    (hov : ∀ k, pyFloat (jget d k (.num 0)) ≠ .error .overflowError) :
    (parse_cpu_pool d).isOk = true ∧ ∃ q, paidVal (parse_cpu_pool d) = some q := by
  rcases pyFloat_cases_of_ne_overflow _ (hov "paid") with ⟨q1, h1⟩ | h1 | h1 <;>
  rcases pyFloat_cases_of_ne_overflow _ (hov "totalHash") with ⟨q2, h2⟩ | h2 | h2 <;>
  rcases pyFloat_cases_of_ne_overflow _ (hov "totalShares") with ⟨q3, h3⟩ | h3 | h3 <;>
  rcases pyFloat_cases_of_ne_overflow _ (hov "immature") with ⟨q4, h4⟩ | h4 | h4 <;>
  rcases pyFloat_cases_of_ne_overflow _ (hov "balance") with ⟨q5, h5⟩ | h5 | h5 <;>
  simp [parse_cpu_pool, catchVT, paidVal, h1, h2, h3, h4, h5, Bind.bind,
    Except.bind, Except.isOk, Except.toBool, pure, Except.pure, List.lookup]

/-- When the `"paid"` field is absent from the response and no field holds
an out-of-range integer, `parse_cpu_pool` still succeeds and reports
`paid = 0` (the `data.get("paid", 0.0)` default, or the `except` fallback
when some other field fails to convert with `ValueError`/`TypeError`). -/
theorem parse_cpu_pool_paid_zero (d : List (String × JValue))
    (h : d.lookup "paid" = none)
    (hov : ∀ k, pyFloat (jget d k (.num 0)) ≠ .error .overflowError) :
    (parse_cpu_pool d).isOk = true ∧ paidVal (parse_cpu_pool d) = some 0 := by
  have h1 : pyFloat (jget d "paid" (.num 0)) = .ok 0 := by
    simp [jget, h, pyFloat]
  rcases pyFloat_cases_of_ne_overflow _ (hov "totalHash") with ⟨q2, h2⟩ | h2 | h2 <;>
  rcases pyFloat_cases_of_ne_overflow _ (hov "totalShares") with ⟨q3, h3⟩ | h3 | h3 <;>
  rcases pyFloat_cases_of_ne_overflow _ (hov "immature") with ⟨q4, h4⟩ | h4 | h4 <;>
  rcases pyFloat_cases_of_ne_overflow _ (hov "balance") with ⟨q5, h5⟩ | h5 | h5 <;>
  simp [parse_cpu_pool, catchVT, paidVal, h1, h2, h3, h4, h5, Bind.bind,
    Except.bind, Except.isOk, Except.toBool, pure, Except.pure, List.lookup]

/-- `parse_zpool` is total on dicts whose fields are in float range: it
never raises, and its result always carries a `"paid"` entry. -/
theorem parse_zpool_total (s : Settings) (d : List (String × JValue))
    (hov : ∀ k, pyFloat (jget d k (.num 0)) ≠ .error .overflowError) :
    (parse_zpool s d).isOk = true ∧ ∃ q, paidVal (parse_zpool s d) = some q := by
  rcases pyFloat_cases_of_ne_overflow _ (hov "paid") with ⟨q1, h1⟩ | h1 | h1 <;>
  rcases pyFloat_cases_of_ne_overflow _ (hov "balance") with ⟨q2, h2⟩ | h2 | h2 <;>
  rcases pyFloat_cases_of_ne_overflow _ (hov "unpaid") with ⟨q3, h3⟩ | h3 | h3 <;>
  rcases pyFloat_cases_of_ne_overflow _ (hov "unsold") with ⟨q4, h4⟩ | h4 | h4 <;>
  simp [parse_zpool, catchVT, paidVal, h1, h2, h3, h4, Bind.bind,
    Except.bind, Except.isOk, Except.toBool, pure, Except.pure, List.lookup]

/-- `parse_rplant` is total provided the `"stats"` field, when present, is
a dict whose `"paid"` value is in float range, and the response's own
fields are in float range: under that proviso it never raises and always
reports a `"paid"` entry.  (Without the proviso it can raise
`AttributeError` — or `OverflowError` on an out-of-range integer.) -/
theorem parse_rplant_total_of_stats_obj (d : List (String × JValue))
    (hov : ∀ k, pyFloat (jget d k (.num 0)) ≠ .error .overflowError)
    (hst : ∀ v, d.lookup "stats" = some v →
      ∃ f, v = .obj f ∧ pyFloat (jget f "paid" (.num 0)) ≠ .error .overflowError) :
    (parse_rplant d).isOk = true ∧ ∃ q, paidVal (parse_rplant d) = some q := by
  rcases hs : d.lookup "stats" with _ | v
  · rcases hp : d.lookup "paid" with _ | pv
    · rcases ht : d.lookup "totalPaid" with _ | tv
      · rcases pyFloat_cases_of_ne_overflow _ (hov "balance") with ⟨q2, h2⟩ | h2 | h2 <;>
        simp [parse_rplant, catchVT, paidVal, hs, hp, ht, h2, Bind.bind,
          Except.bind, Except.isOk, Except.toBool, pure, Except.pure, List.lookup]
      · rcases pyFloat_cases_of_ne_overflow _ (hov "totalPaid") with ⟨q1, h1⟩ | h1 | h1 <;>
        rcases pyFloat_cases_of_ne_overflow _ (hov "balance") with ⟨q2, h2⟩ | h2 | h2 <;>
        simp [parse_rplant, catchVT, paidVal, hs, hp, ht, h1, h2, Bind.bind,
          Except.bind, Except.isOk, Except.toBool, pure, Except.pure, List.lookup]
    · rcases pyFloat_cases_of_ne_overflow _ (hov "paid") with ⟨q1, h1⟩ | h1 | h1 <;>
      rcases pyFloat_cases_of_ne_overflow _ (hov "balance") with ⟨q2, h2⟩ | h2 | h2 <;>
      simp [parse_rplant, catchVT, paidVal, hs, hp, h1, h2, Bind.bind,
        Except.bind, Except.isOk, Except.toBool, pure, Except.pure, List.lookup]
  · obtain ⟨f, rfl, hovf⟩ := hst v hs
    simp only [jget] at hovf
    rcases pyFloat_cases_of_ne_overflow _ hovf with ⟨q1, h1⟩ | h1 | h1 <;>
    rcases pyFloat_cases_of_ne_overflow _ (hov "balance") with ⟨q2, h2⟩ | h2 | h2 <;>
    simp only [jget] at h2 <;>
    simp [parse_rplant, catchVT, paidVal, hs, jget, pyGet, h1, h2, Bind.bind,
      Except.bind, Except.isOk, Except.toBool, pure, Except.pure, List.lookup]

/-! ## Claim C1 — the (account, source, cumulative-paid) idempotency key -/

/-- C1 is false of the code: no uniqueness of (player, pool, `current_paid`)
is enforced.  After the payout sequence 10, 5 (a counter reset), a
`MiningEvent` keyed by value 10 already exists, yet re-processing a record
with the same value 10 inserts a second event with `current_paid = 10` and
raises the totals again. -/
theorem c1_counterexample :
    (processSeq defaultSettings [[("paid", 10)], [("paid", 5)]] emptyPairState).events =
      [⟨10, 1000, 0, 10, true, true⟩] ∧
    (process_pool_data defaultSettings [("paid", 10)]
        (processSeq defaultSettings [[("paid", 10)], [("paid", 5)]] emptyPairState)).events =
      [⟨5, 500, 5, 10, true, true⟩, ⟨10, 1000, 0, 10, true, true⟩] ∧
    (process_pool_data defaultSettings [("paid", 10)]
        (processSeq defaultSettings [[("paid", 10)], [("paid", 5)]] emptyPairState)).total_ap ≠
      (processSeq defaultSettings [[("paid", 10)], [("paid", 5)]] emptyPairState).total_ap := by
  norm_num [processSeq, process_pool_data, getF, lastPaid, snapOf, defaultSettings,
    emptyPairState, List.lookup]

/-- C1 amended: duplicate suppression comes only from the snapshot
baseline, not from a ledger key — an immediate replay of the same canonical
record is a no-op for the ledger and the totals (the rebuilt delta is zero),
and only appends another snapshot row.  (The guard fails once the baseline
moves below the old value, as `c1_counterexample` shows.) -/
theorem c1_replay_is_noop (s : Settings) (d : List (String × ℚ))
    (st : PoolPairState) (h : 0 ≤ s.min_payout_delta) :
    process_pool_data s d (process_pool_data s d st) =
      { process_pool_data s d st with
        snapshots := snapOf d :: (process_pool_data s d st).snapshots } := by
  apply process_pool_data_of_le
  rw [lastPaid_process_pool_data, sub_self]
  exact h

/-- Witness for `c1_replay_is_noop` at the default settings, the record
`{"paid": 10}` and the empty pair state. -/
theorem c1_witness :
    0 ≤ defaultSettings.min_payout_delta ∧
    process_pool_data defaultSettings [("paid", 10)]
        (process_pool_data defaultSettings [("paid", 10)] emptyPairState) =
      { process_pool_data defaultSettings [("paid", 10)] emptyPairState with
        snapshots := snapOf [("paid", 10)] ::
          (process_pool_data defaultSettings [("paid", 10)] emptyPairState).snapshots } :=
  ⟨by norm_num [defaultSettings],
   c1_replay_is_noop defaultSettings [("paid", 10)] emptyPairState
     (by norm_num [defaultSettings])⟩

/-! ## Claim C2 — behaviour on the very first observation -/

/-- C2 is false of the code: with no prior snapshot the baseline defaults
to `0.0` (src/server/pool_poller.py:380), so the very first record
`{"paid": 10}` immediately creates a `MiningEvent` crediting the full
cumulative value and changes the totals. -/
theorem c2_counterexample :
    process_pool_data defaultSettings [("paid", 10)] emptyPairState =
      { snapshots := [⟨10, 0, 0, 0, 0⟩]
        events := [⟨10, 1000, 0, 10, true, true⟩]
        total_ap := 1000
        total_advc_mined := 10 } ∧
    (process_pool_data defaultSettings [("paid", 10)] emptyPairState).events ≠ [] ∧
    (process_pool_data defaultSettings [("paid", 10)] emptyPairState).total_ap ≠
      emptyPairState.total_ap := by
  norm_num [process_pool_data, getF, lastPaid, snapOf, defaultSettings,
    emptyPairState, List.lookup]
  all_goals simp +decide

/-- C2 amended: the first observation is diffed against an implicit `0.0`
baseline, so any first record whose cumulative-paid value exceeds
`min_payout_delta` produces one `MiningEvent` crediting the whole amount
and sets the totals accordingly (a snapshot is recorded as well). -/
theorem c2_first_sight_credits (s : Settings) (V : ℚ)
    (h : s.min_payout_delta < V) :
    process_pool_data s [("paid", V)] emptyPairState =
      { snapshots := [⟨V, 0, 0, 0, 0⟩]
        events := [⟨V, V * s.ap_per_advc, 0, V, true, true⟩]
        total_ap := V * s.ap_per_advc
        total_advc_mined := V } := by
  have hg : getF [("paid", V)] "paid" = V := by simp [getF, List.lookup]
  have hl : lastPaid emptyPairState = 0 := rfl
  rw [process_pool_data_of_gt s _ _ (by rw [hg, hl]; simpa using h)]
  simp +decide [emptyPairState, hg, hl, snapOf, getF, List.lookup]

/-- Witness for `c2_first_sight_credits` at the default settings and a
first-ever record `{"paid": 10}`. -/
theorem c2_witness :
    defaultSettings.min_payout_delta < 10 ∧
    process_pool_data defaultSettings [("paid", 10)] emptyPairState =
      { snapshots := [⟨10, 0, 0, 0, 0⟩]
        events := [⟨10, 10 * defaultSettings.ap_per_advc, 0, 10, true, true⟩]
        total_ap := 10 * defaultSettings.ap_per_advc
        total_advc_mined := 10 } :=
  ⟨by norm_num [defaultSettings],
   c2_first_sight_credits defaultSettings 10 (by norm_num [defaultSettings])⟩

/-! ## Claim C3 — snapshot upsert vs. append -/

/-- C3 is false of the code: snapshots are appended, not upserted.  Two
polls of the same pair leave two live `PoolSnapshot` rows, violating
"at most one live Snapshot per (Account, Source)". -/
theorem c3_counterexample :
    (processSeq defaultSettings [[("paid", 10)], [("paid", 10)]]
        emptyPairState).snapshots = [⟨10, 0, 0, 0, 0⟩, ⟨10, 0, 0, 0, 0⟩] ∧
    ¬ (processSeq defaultSettings [[("paid", 10)], [("paid", 10)]]
        emptyPairState).snapshots.length ≤ 1 := by
  norm_num [processSeq, process_pool_data, getF, lastPaid, snapOf,
    defaultSettings, emptyPairState, List.lookup]
  all_goals simp +decide

/-- C3 amended: every poll appends one new snapshot row (whether or not a
delta was detected, and whatever the new value), and the effective
last-observed value — the baseline the next poll diffs against — becomes
the new record's paid value; prior rows are retained rather than
replaced. -/
theorem c3_snapshot_rows_append (s : Settings) (d : List (String × ℚ))
    (st : PoolPairState) :
    (process_pool_data s d st).snapshots = snapOf d :: st.snapshots ∧
    (process_pool_data s d st).snapshots.length = st.snapshots.length + 1 ∧
    lastPaid (process_pool_data s d st) = getF d "paid" := by
  refine ⟨process_pool_data_snapshots s d st, ?_, lastPaid_process_pool_data s d st⟩
  rw [process_pool_data_snapshots]
  rfl

/-! ## Claim C4 — handling of a missing / unparsable paid field -/

/-- C4 is false of the code: on a response without a `"paid"` field,
`parse_cpu_pool` does not fail — it fabricates a canonical record with
`paid = 0.0` — and processing that record still advances the snapshot (here
from a prior baseline of 7 down to 0). -/
theorem c4_counterexample :
    parse_cpu_pool [] = .ok [("paid", 0), ("total_hash", 0), ("total_shares", 0),
      ("immature", 0), ("balance", 0)] ∧
    (process_pool_data defaultSettings
        [("paid", 0), ("total_hash", 0), ("total_shares", 0), ("immature", 0),
          ("balance", 0)]
        { snapshots := [⟨7, 0, 0, 0, 0⟩], events := [], total_ap := 700,
          total_advc_mined := 7 }).snapshots =
      [⟨0, 0, 0, 0, 0⟩, ⟨7, 0, 0, 0, 0⟩] := by
  constructor
  · simp +decide [parse_cpu_pool, catchVT, jget, List.lookup, pyFloat,
      Bind.bind, Except.bind, pure, Except.pure]
  · norm_num [process_pool_data, getF, lastPaid, snapOf, defaultSettings,
      List.lookup]
    all_goals simp +decide

/-- C4 amended: a missing `"paid"` field is not a `MalformedResponse` —
provided no field of the response holds an integer numeral outside the
binary64 range, `parse_cpu_pool` succeeds with `paid = 0.0`, the fetch
counts as parsed, and processing the resulting record advances the
snapshot, whose paid baseline becomes `0`.  (An out-of-range integer in
any field instead raises an uncaught `OverflowError`, as the last conjunct
shows; only then is the fetch failed and the snapshot left alone.) -/
theorem c4_missing_paid_defaults_zero (d : List (String × JValue))
    (h : d.lookup "paid" = none)
    (hov : ∀ k, pyFloat (jget d k (.num 0)) ≠ .error .overflowError) :
    (parse_cpu_pool d).isOk = true ∧ paidVal (parse_cpu_pool d) = some 0 ∧
    (∀ (s : Settings) (st : PoolPairState) (out : List (String × ℚ)),
      parse_cpu_pool d = .ok out →
        (process_pool_data s out st).snapshots = snapOf out :: st.snapshots ∧
        (snapOf out).paid = 0) ∧
    parse_cpu_pool [("totalHash", JValue.int (10 ^ 400))] =
      .error .overflowError := by
  obtain ⟨hok, hz⟩ := parse_cpu_pool_paid_zero d h hov
  refine ⟨hok, hz, ?_, ?_⟩
  · intro s st out hout
    refine ⟨process_pool_data_snapshots s out st, ?_⟩
    rw [hout] at hz
    simp only [paidVal] at hz
    simp [snapOf_paid, getF, hz]
  · have hb : overflowBound ≤ |(10 ^ 400 : ℤ)| := by
      rw [abs_of_nonneg (by positivity)]
      calc overflowBound ≤ (2 : ℤ) ^ 1024 := sub_le_self _ (by positivity)
        _ ≤ (2 : ℤ) ^ 1200 := pow_le_pow_right₀ (by norm_num) (by norm_num)
        _ = ((2 : ℤ) ^ 3) ^ 400 := by rw [← pow_mul]
        _ ≤ (10 : ℤ) ^ 400 := pow_le_pow_left₀ (by norm_num) (by norm_num) 400
    have hof : pyFloat (JValue.int (10 ^ 400)) = .error .overflowError := by
      simp only [pyFloat]
      rw [if_pos hb]
    have hnum : pyFloat (JValue.num 0) = .ok 0 := rfl
    simp +decide [parse_cpu_pool, catchVT, jget, List.lookup, hof, hnum,
      Bind.bind, Except.bind]

/-- Witness for `c4_missing_paid_defaults_zero` at the concrete response
`{"balance": 3}`, which has no `"paid"` field and no out-of-range
integer. -/
theorem c4_witness :
    List.lookup "paid" [("balance", JValue.num 3)] = none ∧
    (parse_cpu_pool [("balance", JValue.num 3)]).isOk = true ∧
    paidVal (parse_cpu_pool [("balance", JValue.num 3)]) = some 0 := by
  have h : List.lookup "paid" [("balance", JValue.num 3)] = none := by
    simp +decide [List.lookup]
  have hov : ∀ k, pyFloat (jget [("balance", JValue.num 3)] k (.num 0)) ≠
      .error .overflowError := by
    intro k
    cases h' : (k == "balance") <;> simp [jget, List.lookup, h', pyFloat]
  exact ⟨h, (c4_missing_paid_defaults_zero _ h hov).1,
    (c4_missing_paid_defaults_zero _ h hov).2.1⟩

/-! ## Claim C5 — non-positive deltas (provider counter resets) -/

/-- C5 as stated: when the new cumulative-paid value does not exceed the
prior baseline (`rawDelta ≤ 0`) and the configured threshold is
nonnegative, the call creates no event and leaves the totals untouched —
the state only gains the new snapshot row — and the baseline is still
advanced to the new (lower or equal) value. -/
theorem c5_nonpositive_delta_noop (s : Settings) (d : List (String × ℚ))
    (st : PoolPairState) (hd : getF d "paid" - lastPaid st ≤ 0)
    (hmin : 0 ≤ s.min_payout_delta) :
    process_pool_data s d st = { st with snapshots := snapOf d :: st.snapshots } ∧
    lastPaid (process_pool_data s d st) = getF d "paid" :=
  ⟨process_pool_data_of_le s d st (hd.trans hmin),
   lastPaid_process_pool_data s d st⟩

/-- Witness for `c5_nonpositive_delta_noop`: a prior baseline of 10 and a
reset counter reporting 5, at the default settings. -/
theorem c5_witness :
    getF [("paid", 5)] "paid" -
        lastPaid (PoolPairState.mk [⟨10, 0, 0, 0, 0⟩] [] 1000 10) ≤ 0 ∧
    0 ≤ defaultSettings.min_payout_delta ∧
    process_pool_data defaultSettings [("paid", 5)]
        (PoolPairState.mk [⟨10, 0, 0, 0, 0⟩] [] 1000 10) =
      PoolPairState.mk (snapOf [("paid", 5)] :: [⟨10, 0, 0, 0, 0⟩]) [] 1000 10 ∧
    lastPaid (process_pool_data defaultSettings [("paid", 5)]
        (PoolPairState.mk [⟨10, 0, 0, 0, 0⟩] [] 1000 10)) =
      getF [("paid", 5)] "paid" := by
  have hd : getF [("paid", 5)] "paid" -
      lastPaid (PoolPairState.mk [⟨10, 0, 0, 0, 0⟩] [] 1000 10) ≤ 0 := by
    norm_num [getF, lastPaid, List.lookup]
  have hmin : (0 : ℚ) ≤ defaultSettings.min_payout_delta := by
    norm_num [defaultSettings]
  obtain ⟨h1, h2⟩ := c5_nonpositive_delta_noop defaultSettings [("paid", 5)] _ hd hmin
  exact ⟨hd, hmin, h1, h2⟩

/-! ## Claim C6 — the minimum-payout threshold is strict -/

/-- C6 is false of the code at the threshold boundary: with threshold 1/8,
prior baseline 10 and new value 81/8 (all exactly representable in
binary64), the delta equals the threshold, yet no event is created —
the code requires `delta > settings.min_payout_delta`, strictly. -/
theorem c6_counterexample :
    getF [("paid", 81 / 8)] "paid" -
        lastPaid (PoolPairState.mk [⟨10, 0, 0, 0, 0⟩] [] 0 0) =
      (Settings.mk 60 100 (1 / 8) 1000000).min_payout_delta ∧
    (process_pool_data (Settings.mk 60 100 (1 / 8) 1000000) [("paid", 81 / 8)]
        (PoolPairState.mk [⟨10, 0, 0, 0, 0⟩] [] 0 0)).events = [] := by
  constructor
  · norm_num [getF, lastPaid, List.lookup]
  · norm_num [process_pool_data, getF, lastPaid, snapOf, List.lookup]

/-- C6 amended: an event is emitted exactly when the delta is strictly
greater than `min_payout_delta` (a delta equal to the threshold emits
nothing); when emitted it carries the delta and the two baselines, and in
every case the snapshot row is appended. -/
theorem c6_strict_threshold (s : Settings) (d : List (String × ℚ))
    (st : PoolPairState) :
    ((process_pool_data s d st).events ≠ st.events ↔
      s.min_payout_delta < getF d "paid" - lastPaid st) ∧
    (s.min_payout_delta < getF d "paid" - lastPaid st →
      (process_pool_data s d st).events =
        { advc_amount := getF d "paid" - lastPaid st
          ap_awarded := (getF d "paid" - lastPaid st) * s.ap_per_advc
          previous_paid := lastPaid st
          current_paid := getF d "paid"
          processed := true
          notified := true } :: st.events) ∧
    (process_pool_data s d st).snapshots = snapOf d :: st.snapshots := by
  refine ⟨⟨?_, ?_⟩, ?_, process_pool_data_snapshots s d st⟩
  · intro hne
    by_contra hle
    rw [process_pool_data_of_le s d st (not_lt.mp hle)] at hne
    exact hne rfl
  · intro hgt
    rw [process_pool_data_of_gt s d st hgt]
    simp
  · intro hgt
    rw [process_pool_data_of_gt s d st hgt]

/-- Witness for `c6_strict_threshold`: its emission clause applied at the
default settings to a first-ever record `{"paid": 10}`. -/
theorem c6_witness :
    defaultSettings.min_payout_delta <
      getF [("paid", 10)] "paid" - lastPaid emptyPairState ∧
    (process_pool_data defaultSettings [("paid", 10)] emptyPairState).events =
      { advc_amount := getF [("paid", 10)] "paid" - lastPaid emptyPairState
        ap_awarded := (getF [("paid", 10)] "paid" - lastPaid emptyPairState) *
          defaultSettings.ap_per_advc
        previous_paid := lastPaid emptyPairState
        current_paid := getF [("paid", 10)] "paid"
        processed := true
        notified := true } :: emptyPairState.events := by
  have hgt : defaultSettings.min_payout_delta <
      getF [("paid", 10)] "paid" - lastPaid emptyPairState := by
    norm_num [defaultSettings, getF, lastPaid, emptyPairState, List.lookup]
  exact ⟨hgt, (c6_strict_threshold defaultSettings [("paid", 10)] emptyPairState).2.1 hgt⟩

/-! ## Claim C7 — the 10.0 → 11.5 scenario -/

/-- C7 as stated: with a prior snapshot at 10.0, a fresh record at 11.5 and
threshold 0.1, the call creates exactly one event with delta 1.5, raises
the player's credit total by 1.5 times the configured conversion rate, adds
1.5 to the mined total, and the newest snapshot value becomes 11.5 — for
every conversion rate and any starting totals.  (10.0, 11.5 and 1.5 are
exactly representable in binary64, and 1.5 exceeds the binary64 value of
0.1, so the rational computation matches the code's float computation.) -/
theorem c7_scenario (rate a m : ℚ) :
    process_pool_data (Settings.mk 60 rate (1 / 10) 1000000) [("paid", 23 / 2)]
        (PoolPairState.mk [⟨10, 0, 0, 0, 0⟩] [] a m) =
      PoolPairState.mk [⟨23 / 2, 0, 0, 0, 0⟩, ⟨10, 0, 0, 0, 0⟩]
        [⟨3 / 2, 3 / 2 * rate, 10, 23 / 2, true, true⟩] (a + 3 / 2 * rate)
        (m + 3 / 2) := by
  rw [process_pool_data_of_gt _ _ _ (by norm_num [getF, lastPaid, List.lookup])]
  norm_num [snapOf, getF, lastPaid, List.lookup]
  all_goals simp +decide

/-! ## Claim C8 — decimal versus binary floating-point arithmetic -/

/-- The binary64 value CPython stores for the decimal numeral `0.1`:
`3602879701896397 × 2⁻⁵⁵`, which is strictly greater than `1/10`. -/
theorem pyFloat64_of_tenth :
    pyFloat64 (1 / 10) = 3602879701896397 / 36028797018963968 := by
  have hlog : Int.log 2 |((1 : ℚ) / 10)| = -4 := by
    rw [abs_of_pos (by norm_num)]
    rw [Int.log_of_right_le_one _ (by norm_num)]
    have h10 : ⌈((1 : ℚ) / 10)⁻¹⌉₊ = 10 := by norm_num
    rw [h10]
    have h1 : 3 < Nat.clog 2 10 := by
      rw [← Nat.pow_lt_iff_lt_clog (by norm_num)]; norm_num
    have h2 : ¬ (4 < Nat.clog 2 10) := by
      rw [← Nat.pow_lt_iff_lt_clog (by norm_num)]; norm_num
    omega
  rw [pyFloat64, if_neg (by norm_num)]
  simp only [hlog]
  rw [abs_of_pos (by norm_num)]
  have hm : roundHalfEven ((1 : ℚ) / 10 * (2 : ℚ) ^ ((52 : ℤ) - (-4))) =
      7205759403792794 := by
    have hsc : ((1 : ℚ) / 10 * (2 : ℚ) ^ ((52 : ℤ) - (-4))) =
        36028797018963968 / 5 := by norm_num
    rw [roundHalfEven, hsc]
    have hfl : ⌊(36028797018963968 : ℚ) / 5⌋ = 7205759403792793 := by
      rw [Int.floor_eq_iff]; norm_num
    rw [hfl]
    norm_num
  rw [hm]
  rw [if_neg (by norm_num)]
  norm_num

/-- C8 is false of the code: monetary values are CPython floats, i.e.
IEEE-754 binary64, not decimals.  The provider decimal `0.1` reaches
`parse_cpu_pool` as the nearest binary64 value `3602879701896397 × 2⁻⁵⁵`
(that is what `json.loads` hands to `float`), and that value is not equal
to the exact decimal `1/10` — so the canonical cumulative-paid value is not
held in exact decimal arithmetic. -/
theorem c8_counterexample :
    parse_cpu_pool [("paid", .num (pyFloat64 (1 / 10)))] =
      .ok [("paid", 3602879701896397 / 36028797018963968), ("total_hash", 0),
        ("total_shares", 0), ("immature", 0), ("balance", 0)] ∧
    (3602879701896397 : ℚ) / 36028797018963968 ≠ 1 / 10 := by
  rw [pyFloat64_of_tenth]
  constructor
  · simp +decide [parse_cpu_pool, catchVT, jget, List.lookup, pyFloat,
      Bind.bind, Except.bind, pure, Except.pure]
  · norm_num

/-- C8 amended: the engine's monetary values are IEEE-754 binary64 floats
(Python `float`); a decimal payload such as `0.1` is rounded on entry to
the nearest binary float `3602879701896397 × 2⁻⁵⁵ ≠ 1/10`, and the parser
passes that rounded value through unchanged. -/
theorem c8_binary64_representation :
    pyFloat64 (1 / 10) = 3602879701896397 / 36028797018963968 ∧
    pyFloat64 (1 / 10) ≠ 1 / 10 ∧
    paidVal (parse_cpu_pool [("paid", .num (pyFloat64 (1 / 10)))]) =
      some (pyFloat64 (1 / 10)) := by
  refine ⟨pyFloat64_of_tenth, ?_, ?_⟩
  · rw [pyFloat64_of_tenth]; norm_num
  · rw [pyFloat64_of_tenth]
    simp +decide [parse_cpu_pool, catchVT, paidVal, jget, List.lookup, pyFloat,
      Bind.bind, Except.bind, pure, Except.pure]

/-! ## Claim C9 — the inter-cycle sleep -/

/-- C9 is false of the code: `run_forever` waits on the shutdown event with
the constant timeout `settings.poll_interval_seconds`; with the default
60-second interval, a cycle that itself took 60 seconds is still followed
by a 60-second wait, where the spec's rule (`spec_sleep`) prescribes no
sleep at all. -/
theorem c9_counterexample :
    run_forever_wait defaultSettings 60 = 60 ∧
    spec_sleep defaultSettings.poll_interval_seconds 60 = 0 ∧
    run_forever_wait defaultSettings 60 ≠
      spec_sleep defaultSettings.poll_interval_seconds 60 := by
  norm_num [run_forever_wait, spec_sleep, defaultSettings]

/-- C9 amended: the scheduler always waits the full configured interval
after a cycle finishes, never less; this coincides with the spec's
"interval minus elapsed, clamped at zero" exactly when the cycle took no
time at all. -/
theorem c9_full_interval_wait (s : Settings) (e : ℚ) (he : 0 ≤ e)
    (hi : 0 < s.poll_interval_seconds) :
    spec_sleep s.poll_interval_seconds e ≤ run_forever_wait s e ∧
    (run_forever_wait s e = spec_sleep s.poll_interval_seconds e ↔ e = 0) := by
  constructor
  · rw [run_forever_wait, spec_sleep]
    apply max_le
    · linarith
    · linarith
  · rw [run_forever_wait, spec_sleep]
    constructor
    · intro h
      rcases le_total (s.poll_interval_seconds - e) 0 with hle | hge
      · rw [max_eq_right hle] at h
        linarith
      · rw [max_eq_left hge] at h
        linarith
    · intro h
      subst h
      rw [sub_zero]
      exact (max_eq_left hi.le).symm

/-- Witness for `c9_full_interval_wait` at the default settings and an
instantaneous cycle. -/
theorem c9_witness :
    (0 : ℚ) ≤ 0 ∧ 0 < defaultSettings.poll_interval_seconds ∧
    spec_sleep defaultSettings.poll_interval_seconds 0 ≤
      run_forever_wait defaultSettings 0 ∧
    (run_forever_wait defaultSettings 0 =
      spec_sleep defaultSettings.poll_interval_seconds 0 ↔ (0 : ℚ) = 0) := by
  have hi : (0 : ℚ) < defaultSettings.poll_interval_seconds := by
    norm_num [defaultSettings]
  obtain ⟨h1, h2⟩ := c9_full_interval_wait defaultSettings 0 (le_refl 0) hi
  exact ⟨le_refl 0, hi, h1, h2⟩

/-! ## Claim C10 — totality of the three parsers -/

/-- C10 is false of the code for `parse_rplant`: a dict input whose
`"stats"` value is not itself a dict makes `stats.get("paid", 0.0)` raise
`AttributeError`, which the `except (ValueError, TypeError)` clause does
not catch, so the parser raises instead of returning `{"paid": 0.0}`. -/
theorem c10_counterexample :
    parse_rplant [("stats", JValue.str "x")] = .error .attributeError := by
  simp +decide [parse_rplant, catchVT, jget, pyGet, List.lookup, pyFloat,
    Bind.bind, Except.bind]

/-- C10 amended: no parser is unconditionally total — `float()` on an
integer numeral outside the binary64 range raises `OverflowError`, which
`except (ValueError, TypeError)` does not catch (last conjunct).  Under the
proviso that every field value is in float range, `parse_cpu_pool` and
`parse_zpool` never raise and always report a `"paid"` entry, and
`parse_rplant` does too provided additionally that a `"stats"` field, when
present, is a dict whose `"paid"` value is in float range (a non-dict
`"stats"` raises `AttributeError`, see `c10_counterexample`). -/
theorem c10_parsers_total (d : List (String × JValue))
    (hov : ∀ k, pyFloat (jget d k (.num 0)) ≠ .error .overflowError) :
    ((parse_cpu_pool d).isOk = true ∧ ∃ q, paidVal (parse_cpu_pool d) = some q) ∧
    (∀ s : Settings,
      (parse_zpool s d).isOk = true ∧ ∃ q, paidVal (parse_zpool s d) = some q) ∧
    ((∀ v, d.lookup "stats" = some v →
        ∃ f, v = .obj f ∧ pyFloat (jget f "paid" (.num 0)) ≠ .error .overflowError) →
      (parse_rplant d).isOk = true ∧ ∃ q, paidVal (parse_rplant d) = some q) ∧
    parse_cpu_pool [("paid", JValue.int (10 ^ 400))] = .error .overflowError := by
  refine ⟨parse_cpu_pool_total d hov, fun s => parse_zpool_total s d hov,
    fun h => parse_rplant_total_of_stats_obj d hov h, ?_⟩
  have hb : overflowBound ≤ |(10 ^ 400 : ℤ)| := by
    rw [abs_of_nonneg (by positivity)]
    calc overflowBound ≤ (2 : ℤ) ^ 1024 := sub_le_self _ (by positivity)
      _ ≤ (2 : ℤ) ^ 1200 := pow_le_pow_right₀ (by norm_num) (by norm_num)
      _ = ((2 : ℤ) ^ 3) ^ 400 := by rw [← pow_mul]
      _ ≤ (10 : ℤ) ^ 400 := pow_le_pow_left₀ (by norm_num) (by norm_num) 400
  have hof : pyFloat (JValue.int (10 ^ 400)) = .error .overflowError := by
    simp only [pyFloat]
    rw [if_pos hb]
  simp +decide [parse_cpu_pool, catchVT, jget, List.lookup, hof,
    Bind.bind, Except.bind]

/-- Witness for `c10_parsers_total` at the response
`{"stats": {"paid": 2}}`, whose `"stats"` value is a dict and whose
numerals are all in float range. -/
theorem c10_witness :
    (parse_rplant [("stats", JValue.obj [("paid", JValue.num 2)])]).isOk = true ∧
    (paidVal (parse_rplant [("stats", JValue.obj [("paid", JValue.num 2)])])).isSome
      = true ∧
    (parse_cpu_pool [("stats", JValue.obj [("paid", JValue.num 2)])]).isOk = true ∧
    (parse_zpool defaultSettings
      [("stats", JValue.obj [("paid", JValue.num 2)])]).isOk = true := by
  have hov : ∀ k, pyFloat (jget [("stats", JValue.obj [("paid", JValue.num 2)])] k
      (.num 0)) ≠ .error .overflowError := by
    intro k
    cases h' : (k == "stats") <;> simp [jget, List.lookup, h', pyFloat]
  have h := c10_parsers_total [("stats", JValue.obj [("paid", JValue.num 2)])] hov
  have hst : ∀ v, List.lookup "stats" [("stats", JValue.obj [("paid", JValue.num 2)])] =
      some v → ∃ f, v = .obj f ∧
        pyFloat (jget f "paid" (.num 0)) ≠ .error .overflowError := by
    intro v hv
    simp +decide [List.lookup] at hv
    exact ⟨[("paid", JValue.num 2)], hv.symm, by simp [jget, List.lookup, pyFloat]⟩
  obtain ⟨q, hq⟩ := (h.2.2.1 hst).2
  refine ⟨(h.2.2.1 hst).1, ?_, h.1.1, (h.2.1 defaultSettings).1⟩
  rw [hq]
  rfl

end M2P
